import Mathlib

/-!
A shallow embedding of `import_products_from_excel.py`, a threaded
Excel-to-Odoo product importer.  The remote XML-RPC endpoint is modelled as
an oracle (`Client`) whose four operations may fail; every computation that
talks to the remote is a value of the monad `M`, which records the sequence
of remote calls it issues alongside its `Except` outcome.  Spreadsheet rows
are association lists of cells; a cell is blank (Python `None` / pandas
`NaN`), a string, or a boolean — the scalar shapes the script's helpers
distinguish.
-/

namespace ProductsCreate

/-- A raw spreadsheet cell as the script sees it after `df.to_dict("records")`:
`blank` covers Python `None` and pandas `NaN` (both stringify to "" through
`_safe_str`), `str` a textual cell, `boolv` a boolean cell (checked first by
`_to_bool`). -/
inductive Cell where
  | blank : Cell
  | str : String → Cell
  | boolv : Bool → Cell
deriving DecidableEq

/-- A row: ordered mapping of column name to raw cell, as produced by
`pd.Series(row_dict)`. -/
abbrev Row := List (String × Cell)

/-- Lookup `row.get(key)`: first binding wins; missing key gives `none` (Python `None`). -/
def Row.get (r : Row) (k : String) : Option Cell :=
  (r.find? (fun p => p.1 = k)).map (fun p => p.2)

/-- Membership test `key in row` used for the category column fallback. -/
def Row.hasKey (r : Row) (k : String) : Bool :=
  r.any (fun p => p.1 = k)

/-- Python `str.strip()`: drop leading and trailing whitespace (list-based,
so that concrete instances evaluate by kernel reduction). -/
def pyStrip (s : String) : String :=
  String.mk (((s.toList.dropWhile Char.isWhitespace).reverse.dropWhile
    Char.isWhitespace).reverse)

/-- Python `str.lower()` restricted to the alphabets the script meets:
ASCII letters plus the Latin-1 uppercase range (so that `'Í'` lowers to
`'í'`, as in the truthy token `"Sí"`). -/
def pyLowerChar (c : Char) : Char :=
  if 'A' ≤ c ∧ c ≤ 'Z' then Char.ofNat (c.toNat + 32)
  else if 'À' ≤ c ∧ c ≤ 'Þ' ∧ c ≠ '×' then Char.ofNat (c.toNat + 32)
  else c

/-- Python `str.lower()` on a whole string. -/
def pyLower (s : String) : String :=
  String.mk (s.toList.map pyLowerChar)

/-- Python `str.isdigit()` (restricted to ASCII digits): nonempty and all digits. -/
def pyIsDigit (s : String) : Bool :=
  s ≠ "" ∧ s.toList.all Char.isDigit

/-- Numeric value of an all-digit string (what `int(value)` returns on a
string that passed `isdigit`). -/
def digitsToNat (s : String) : Nat :=
  s.toList.foldl (fun a c => 10 * a + (c.toNat - 48)) 0

/-- Helper `_safe_str`: `None`/`NaN` become `""`, anything else is stringified and
stripped.  Python renders booleans as `"True"`/`"False"`. -/
def _safe_str : Option Cell → String
  | none => ""
  | some .blank => ""
  | some (.str s) => pyStrip s
  | some (.boolv b) => if b then "True" else "False"

/-- Helper `_to_bool`: `None` is false, a boolean cell is itself, and any other
value is stringified, stripped, lowered and tested against the fixed truthy
vocabulary.  A blank (`NaN`) cell stringifies to `"nan"`, which is not in
the vocabulary. -/
def _to_bool : Option Cell → Bool
  | none => false
  | some .blank => false
  | some (.boolv b) => b
  | some (.str s) =>
      ["1", "true", "t", "si", "sí", "yes", "y", "x", "s"].contains (pyLower (pyStrip s))

/-- Decimal parse modelling Python `float()` on the literals the importer
meets: optional surrounding whitespace, optional sign, digits with an
optional fractional part.  Anything else (including `"abc"`) fails. -/
def pyFloat? (s : String) : Option ℚ :=
  let t := pyStrip s
  let (neg, body) :=
    match t.toList with
    | '-' :: r => (true, r)
    | '+' :: r => (false, r)
    | r => (false, r)
  let intPart := body.takeWhile Char.isDigit
  let rest := body.dropWhile Char.isDigit
  let mag : Option ℚ :=
    match rest with
    | [] => if intPart = [] then none else some (digitsToNat (String.mk intPart) : ℚ)
    | '.' :: frac =>
        if frac.all Char.isDigit ∧ (intPart ≠ [] ∨ frac ≠ []) then
          some ((digitsToNat (String.mk intPart) : ℚ) +
                (digitsToNat (String.mk frac) : ℚ) / ((10 ^ frac.length : ℕ) : ℚ))
        else none
    | _ => none
  mag.map (fun q => if neg then -q else q)

/-- Helper `_to_float`: `None` and `""` give `0.0`; otherwise every comma is
replaced by a dot and the result parsed, any failure degrading to `0.0`. -/
def _to_float : Option Cell → ℚ
  | none => 0
  | some .blank => 0
  | some (.boolv _) =>
      -- float(str(True)) raises, so the except-arm yields 0.0
      0
  | some (.str s) =>
      if s = "" then 0
      else (pyFloat? (String.mk (s.toList.map (fun c => if c = ',' then '.' else c)))).getD 0

/-- A value in a search domain condition (`("id", "=", 5)` carries an int,
the rest strings). -/
inductive RVal where
  | i (n : Int)
  | s (v : String)
deriving DecidableEq

/-- A search domain: list of `(field, operator, value)` triples. -/
abbrev Domain := List (String × String × RVal)

/-- A typed field value in the `vals` dict sent to create/write. -/
inductive FVal where
  | s (v : String)
  | f (v : ℚ)
  | b (v : Bool)
  | i (v : Int)
deriving DecidableEq

/-- The `vals` dict: field name to typed value, in insertion order. -/
abbrev Vals := List (String × FVal)

/-- Keys of a vals dict. -/
def Vals.keys (v : Vals) : List String := v.map (fun p => p.1)

/-- Lookup in a vals dict. -/
def Vals.get (v : Vals) (k : String) : Option FVal :=
  (v.find? (fun p => p.1 = k)).map (fun p => p.2)

/-- A record returned by `read` — only `res_id` is ever read, so field
values are integers. -/
abbrev Rec := List (String × Int)

/-- Field lookup `rec.get(field)`. -/
def Rec.get (r : Rec) (k : String) : Option Int :=
  (r.find? (fun p => p.1 = k)).map (fun p => p.2)

/-- One remote XML-RPC call, as issued by `OdooClient`. -/
inductive RemoteCall where
  | search (model : String) (domain : Domain) (limit : Nat)
  | create (model : String) (vals : Vals)
  | write (model : String) (ids : List Int) (vals : Vals)
  | read (model : String) (ids : List Int) (fields : List String)
deriving DecidableEq

/-- The remote endpoint as a deterministic oracle: each operation either
answers or fails (an `xmlrpc` fault / transport error, carried as text). -/
structure Client where
  search : String → Domain → Nat → Except String (List Int)
  create : String → Vals → Except String Int
  write : String → List Int → Vals → Except String Bool
  read : String → List Int → List String → Except String (List Rec)

/-- Remote-interacting computations: given the oracle, produce the trace of
remote calls issued and an outcome (normal return or raised exception). -/
def M (α : Type) := Client → List RemoteCall × Except String α

instance : Monad M where
  pure a := fun _ => ([], .ok a)
  bind x f := fun c =>
    match x c with
    | (t, .ok a) =>
        let (t₂, r) := f a c
        (t ++ t₂, r)
    | (t, .error e) => (t, .error e)

/-- Call `client.search(model, domain, limit)` inside `M`. -/
def searchM (model : String) (domain : Domain) (limit : Nat) : M (List Int) :=
  fun c => ([.search model domain limit], c.search model domain limit)

/-- Call `client.create(model, vals)` inside `M`. -/
def createM (model : String) (vals : Vals) : M Int :=
  fun c => ([.create model vals], c.create model vals)

/-- Call `client.write(model, ids, vals)` inside `M`. -/
def writeM (model : String) (ids : List Int) (vals : Vals) : M Bool :=
  fun c => ([.write model ids vals], c.write model ids vals)

/-- Call `client.read(model, ids, fields)` inside `M`. -/
def readM (model : String) (ids : List Int) (fields : List String) : M (List Rec) :=
  fun c => ([.read model ids fields], c.read model ids fields)

/-- Python `value.split(".", 1)`: the part before the first dot and the
part after it. -/
def splitFirstDot (s : String) : String × String :=
  let pre := s.toList.takeWhile (fun c => c ≠ '.')
  (String.mk pre, String.mk (s.toList.drop (pre.length + 1)))

/-- Registry tail `if rec and rec[0].get("res_id"): return rec[0]["res_id"]` — the bound
internal id of an external-id registry record, when the read produced a
record whose `res_id` is truthy (a nonzero integer). -/
def resIdOf (recs : List Rec) : Option Int :=
  match recs with
  | [] => none
  | r :: _ =>
      match r.get "res_id" with
      | some n => if n ≠ 0 then some n else none
      | none => none

/-- Sequential early-return: run `x`; if it returned a value, that is the
answer, otherwise fall through to `y`.  This is the control flow of the
successive `if …: return …` blocks in `ensure_category`. -/
def firstSome (x y : M (Option Int)) : M (Option Int) := do
  match ← x with
  | some r => pure (some r)
  | none => y

/-- Strategy 1 of `ensure_category`: a purely numeric token is a literal
internal id, confirmed by a search (`if ids: return ids[0]`). -/
def ec_numericId (value : String) : M (Option Int) :=
  if pyIsDigit value then do
    let ids ← searchM "product.category" [("id", "=", .i (digitsToNat value : Int))] 1
    pure ids.head?
  else pure none

/-- The registry tail shared by strategies 2 and 3: on a search hit, read
the record's `res_id` and return it when truthy. -/
def registryResId (ids : List Int) : M (Option Int) :=
  match ids with
  | [] => pure none
  | _ :: _ => do
    let recs ← readM "ir.model.data" ids ["res_id"]
    pure (resIdOf recs)

/-- Strategy 2 of `ensure_category`: a `module.name` token looked up in the
`ir.model.data` external-id registry. -/
def ec_xmlId (value : String) : M (Option Int) :=
  if value.toList.contains '.' then do
    let mn := splitFirstDot value
    let ids ← searchM "ir.model.data"
      [("module", "=", .s mn.1), ("name", "=", .s mn.2),
       ("model", "=", .s "product.category")] 1
    registryResId ids
  else pure none

/-- Strategy 3 of `ensure_category`: the bare token as registry external id. -/
def ec_bareExternalId (value : String) : M (Option Int) := do
  let ids ← searchM "ir.model.data"
    [("name", "=", .s value), ("model", "=", .s "product.category")] 1
  registryResId ids

/-- Strategy 4 of `ensure_category`: exact display-name search on the
category model. -/
def ec_byName (value : String) : M (Option Int) := do
  let ids ← searchM "product.category" [("name", "=", .s value)] 1
  pure ids.head?

/-- Method `ProductImporter.ensure_category`: resolve a category reference through
the four-strategy fallback chain — literal numeric id, qualified
`module.name` external id, bare external id, display name — stopping at the
first strategy that returns an id, or `none` (remote default category
applies). -/
def ensure_category (value₀ : String) : M (Option Int) :=
  let value := _safe_str (some (.str value₀))
  if value = "" then pure none
  else
    firstSome (ec_numericId value)
      (firstSome (ec_xmlId value)
        (firstSome (ec_bareExternalId value) (ec_byName value)))

/-- The `vals` dict built by `import_row` (lines 213–241): non-boolean
fields are added only when truthy, the four boolean flags always, the
category only when resolved to a truthy id. -/
def buildVals (row : Row) (categ_id : Option Int) : Vals :=
  let name := _safe_str (row.get "name")
  let default_code := _safe_str (row.get "default_code")
  let supplier_code := _safe_str (row.get "supplier_code")
  let brand_name := _safe_str (row.get "brand")
  let barcode₀ := _safe_str (row.get "barcode")
  let barcode := if pyLower barcode₀ = "nan" then "" else barcode₀
  let list_price := _to_float (row.get "list_price")
  let standard_price := _to_float (row.get "standard_price")
  let available_in_pos := _to_bool (row.get "available_in_pos")
  let purchase_ok := _to_bool (row.get "purchase_ok")
  let sale_ok := _to_bool (row.get "sale_ok")
  let is_storable_flag := _to_bool (row.get "is_storable")
  (if name ≠ "" then [("name", FVal.s name)] else []) ++
  (if default_code ≠ "" then [("default_code", FVal.s default_code)] else []) ++
  (if barcode ≠ "" then [("barcode", FVal.s barcode)] else []) ++
  (if list_price ≠ 0 then [("list_price", FVal.f list_price)] else []) ++
  (if standard_price ≠ 0 then [("standard_price", FVal.f standard_price)] else []) ++
  (if supplier_code ≠ "" then [("supplier_code", FVal.s supplier_code)] else []) ++
  (if brand_name ≠ "" then [("brand", FVal.s brand_name)] else []) ++
  [("available_in_pos", FVal.b available_in_pos),
   ("purchase_ok", FVal.b purchase_ok),
   ("sale_ok", FVal.b sale_ok),
   ("is_storable", FVal.b is_storable_flag)] ++
  (match categ_id with
   | some cid => if cid ≠ 0 then [("categ_id", FVal.i cid)] else []
   | none => [])

/-- The category reference of a row: two alternative column names for the
same semantic field, the first present winning. -/
def category_value (row : Row) : String :=
  if row.hasKey "categ_id/id" then _safe_str (row.get "categ_id/id")
  else _safe_str (row.get "categoria de producto / external id")

/-- The natural-key search domain of `import_row`: exact code match when a
code is present, exact name match otherwise. -/
def natural_key_domain (row : Row) : Domain :=
  if _safe_str (row.get "default_code") ≠ "" then
    [("default_code", "=", .s (_safe_str (row.get "default_code")))]
  else [("name", "=", .s (_safe_str (row.get "name")))]

/-- Fallback `default_code or name`: the identifier quoted in success messages. -/
def row_ident (row : Row) : String :=
  if _safe_str (row.get "default_code") ≠ "" then _safe_str (row.get "default_code")
  else _safe_str (row.get "name")

/-- Method `ProductImporter.import_row`: skip unidentifiable rows, resolve the
category, build `vals`, look the product up by natural key (code first,
else name) and write or create accordingly. -/
def import_row (row : Row) : M String := do
  let default_code := _safe_str (row.get "default_code")
  let name := _safe_str (row.get "name")
  if name = "" ∧ default_code = "" then
    pure "(sin nombre ni código)"
  else do
    let categ_id ← ensure_category (category_value row)
    let vals := buildVals row categ_id
    let ids ← searchM "product.template" (natural_key_domain row) 1
    match ids with
    | i :: _ => do
      let _ ← writeM "product.template" [i] vals
      pure ("update: " ++ row_ident row)
    | [] => do
      let _ ← createM "product.template" vals
      pure ("create: " ++ row_ident row)

/-- The identifier used in a failure message:
`dc or name or '(sin identificador)'`. -/
def failIdent (row : Row) : String :=
  let dc := _safe_str (row.get "default_code")
  let name := _safe_str (row.get "name")
  if dc ≠ "" then dc else if name ≠ "" then name else "(sin identificador)"

/-- Thread body `worker_task`: in dry-run, answer immediately with a synthetic success
and no remote call; otherwise run `import_row` against the worker's client,
catching any exception and converting it into a failure triple carrying the
row's identifier and the error text.  The issued remote-call trace is
returned alongside for the frame analysis. -/
def worker_task (args : Nat × Row × Bool) (c : Client) :
    (Nat × Bool × String) × List RemoteCall :=
  let (row_index, row, dry_run) := args
  if dry_run then ((row_index, true, "(dry-run)"), [])
  else
    match import_row row c with
    | (t, .ok label) => ((row_index, true, label), t)
    | (t, .error e) =>
        ((row_index, false, "ERROR en " ++ failIdent row ++ ": " ++ e), t)

/-- The results collected by `main`'s `executor.map` loop, in original task
order (one triple per row, tagged with its 0-based index). -/
def batchResults (rows : List Row) (dry_run : Bool) (c : Client) :
    List (Nat × Bool × String) :=
  rows.enum.map (fun p => (worker_task (p.1, p.2, dry_run) c).1)

/-- Reordering: `executor.map` yields results keyed by original submission order even
though futures complete in arbitrary order: the coordinator's view of an
arbitrary completion order, re-sorted by row index. -/
def reportInOrder (comp : List (Nat × Bool × String)) : List (Nat × Bool × String) :=
  comp.insertionSort (fun a b => a.1 ≤ b.1)

/-- The final tally of `main`: `(ok_count, err_count)` accumulated over the
reported results. -/
def tally (rs : List (Nat × Bool × String)) : Nat × Nat :=
  rs.foldl (fun a r => if r.2.1 then (a.1 + 1, a.2) else (a.1, a.2 + 1)) (0, 0)

/-- A well-behaved external-id registry: whenever a read of `res_id` on
`ir.model.data` succeeds, the returned record is bound to a truthy internal
id (so a registry hit always ends the resolution). -/
def GoodRegistry (c : Client) : Prop :=
  ∀ ids recs, c.read "ir.model.data" ids ["res_id"] = .ok recs →
    resIdOf recs ≠ none

instance : IsTotal (Nat × Bool × String) (fun a b => a.1 ≤ b.1) :=
  ⟨fun a b => Nat.le_total a.1 b.1⟩

instance : IsTrans (Nat × Bool × String) (fun a b => a.1 ≤ b.1) :=
  ⟨fun _ _ _ => Nat.le_trans⟩

instance : IsAntisymm (Nat × Bool × String) (fun a b => a.1 < b.1) :=
  ⟨fun _ _ h1 h2 => absurd (Nat.lt_trans h1 h2) (Nat.lt_irrefl _)⟩

/-- An oracle with an empty store: searches find nothing, mutations succeed. -/
def okClient : Client :=
  { search := fun _ _ _ => .ok []
    create := fun _ _ => .ok 1
    write := fun _ _ _ => .ok true
    read := fun _ _ _ => .ok [] }

/-- An oracle whose registry searches hit, but whose registry records are
bound to the falsy internal id 0, so registry hits never end a resolution. -/
def degenerateRegistryClient : Client :=
  { search := fun m _ _ => if m = "ir.model.data" then .ok [7] else .ok []
    create := fun _ _ => .ok 99
    write := fun _ _ _ => .ok true
    read := fun _ _ _ => .ok [[("res_id", 0)]] }

/-- An oracle whose registry reads always return a record bound to a truthy
internal id. -/
def registryClient : Client :=
  { search := fun _ _ _ => .ok []
    create := fun _ _ => .ok 1
    write := fun _ _ _ => .ok true
    read := fun _ _ _ => .ok [[("res_id", 5)]] }

/-- An oracle where category id 42 exists and the registry would also match
token "42" (to probe precedence). -/
def idClient : Client :=
  { search := fun m _ _ => if m = "product.category" then .ok [42] else .ok [7]
    create := fun _ _ => .ok 1
    write := fun _ _ _ => .ok true
    read := fun _ _ _ => .ok [[("res_id", 9)]] }

/-- An oracle where only the display-name search matches. -/
def nameClient : Client :=
  { search := fun m _ _ => if m = "product.category" then .ok [33] else .ok []
    create := fun _ _ => .ok 1
    write := fun _ _ _ => .ok true
    read := fun _ _ _ => .ok [] }

/-- An oracle whose every call fails with a transport error. -/
def failingClient : Client :=
  { search := fun _ _ _ => .error "connection refused"
    create := fun _ _ => .error "connection refused"
    write := fun _ _ _ => .error "connection refused"
    read := fun _ _ _ => .error "connection refused" }

/-- Rows used to exercise the batch pipeline on concrete inputs. -/
def demoRows : List Row := [[("name", Cell.str "A")], [("name", Cell.str "B")], []]

/-- A row whose price token is non-empty but parses to 0.0. -/
def zeroPriceRow : Row := [("name", Cell.str "Widget"), ("list_price", Cell.str "0")]

/-- A row with malformed numeric and boolean tokens. -/
def malformedRow : Row :=
  [("default_code", Cell.str "SKU1"), ("list_price", Cell.str "abc"),
   ("purchase_ok", Cell.str "quizás")]

/-- A row with neither code nor name (whitespace name, blank code). -/
def unidentifiedRow : Row := [("name", Cell.str " "), ("default_code", Cell.blank)]

/-- A row with only a product code, used against the failing oracle. -/
def failRow : Row := [("default_code", Cell.str "SKU9")]

/-- A row with code and name and no category token. -/
def upsertRow : Row := [("default_code", Cell.str "SKU1"), ("name", Cell.str "Widget")]

theorem run_pure {α : Type} (a : α) (c : Client) :
    (pure a : M α) c = ([], .ok a) := rfl

theorem run_bind {α β : Type} (x : M α) (f : α → M β) (c : Client) :
    (x >>= f) c =
      match x c with
      | (t, .ok a) => (t ++ (f a c).1, (f a c).2)
      | (t, .error e) => (t, .error e) := by
  show (match x c with
    | (t, .ok a) => let p := f a c; (t ++ p.1, p.2)
    | (t, .error e) => (t, .error e)) = _
  rcases x c with ⟨t, r⟩
  cases r <;> rfl

theorem run_searchM (model : String) (d : Domain) (l : Nat) (c : Client) :
    searchM model d l c = ([.search model d l], c.search model d l) := rfl

theorem run_readM (model : String) (ids : List Int) (fs : List String) (c : Client) :
    readM model ids fs c = ([.read model ids fs], c.read model ids fs) := rfl

theorem run_firstSome (x y : M (Option Int)) (c : Client) :
    firstSome x y c =
      match x c with
      | (t, .ok (some r)) => (t, .ok (some r))
      | (t, .ok none) => (t ++ (y c).1, (y c).2)
      | (t, .error e) => (t, .error e) := by
  show (x >>= fun r => match r with
    | some r => pure (some r)
    | none => y) c = _
  rw [run_bind]
  rcases x c with ⟨t, r⟩
  rcases r with e | a
  · rfl
  · rcases a with _ | r <;> simp [run_pure]

theorem ec_numericId_calls (v : String) (c : Client) :
    (ec_numericId v c).1.length ≤ 1 := by
  unfold ec_numericId
  split
  · rw [run_bind]
    rcases h : searchM "product.category" _ 1 c with ⟨t, r⟩
    have ht : t = [.search "product.category" [("id", "=", .i (digitsToNat v : Int))] 1] := by
      rw [run_searchM] at h
      exact (congrArg Prod.fst h).symm
    cases r <;> simp [ht, run_pure]
  · simp [run_pure]

theorem registryResId_calls (ids : List Int) (c : Client) :
    (registryResId ids c).1.length ≤ 1 := by
  cases ids with
  | nil => simp [registryResId, run_pure]
  | cons i is =>
    have h : registryResId (i :: is) =
        (readM "ir.model.data" (i :: is) ["res_id"] >>= fun recs => pure (resIdOf recs)) := rfl
    rw [h, run_bind, run_readM]
    rcases c.read "ir.model.data" (i :: is) ["res_id"] with e | recs <;> simp [run_pure]

theorem ec_xmlId_calls (v : String) (c : Client) :
    (ec_xmlId v c).1.length ≤ 2 := by
  unfold ec_xmlId
  split
  · rw [run_bind, run_searchM]
    rcases c.search "ir.model.data" _ 1 with e | ids
    · simp
    · have hb := registryResId_calls ids c
      simp
      omega
  · simp [run_pure]

theorem ec_bareExternalId_calls (v : String) (c : Client) :
    (ec_bareExternalId v c).1.length ≤ 2 := by
  unfold ec_bareExternalId
  rw [run_bind, run_searchM]
  rcases c.search "ir.model.data" _ 1 with e | ids
  · simp
  · have hb := registryResId_calls ids c
    simp
    omega

theorem ec_byName_calls (v : String) (c : Client) :
    (ec_byName v c).1.length ≤ 1 := by
  unfold ec_byName
  rw [run_bind, run_searchM]
  rcases c.search "product.category" _ 1 with e | ids <;> simp [run_pure]

theorem registryResId_none_calls {ids : List Int} {c : Client}
    (hg : GoodRegistry c)
    (hn : (registryResId ids c).2 = .ok none) :
    (registryResId ids c).1.length = 0 := by
  cases ids with
  | nil => simp [registryResId, run_pure]
  | cons i is =>
    have h : registryResId (i :: is) =
        (readM "ir.model.data" (i :: is) ["res_id"] >>= fun recs => pure (resIdOf recs)) := rfl
    rw [h, run_bind, run_readM] at hn ⊢
    rcases hr : c.read "ir.model.data" (i :: is) ["res_id"] with e | recs
    · rw [hr] at hn
      simp at hn
    · rw [hr] at hn
      simp [run_pure] at hn
      exact absurd hn (hg _ _ hr)

theorem ec_xmlId_none_calls {v : String} {c : Client}
    (hg : GoodRegistry c)
    (hn : (ec_xmlId v c).2 = .ok none) :
    (ec_xmlId v c).1.length ≤ 1 := by
  unfold ec_xmlId at hn ⊢
  by_cases h : v.toList.contains '.' = true
  · simp only [if_pos h, run_bind, run_searchM] at hn ⊢
    generalize hs : c.search "ir.model.data"
      [("module", "=", RVal.s (splitFirstDot v).1), ("name", "=", RVal.s (splitFirstDot v).2),
       ("model", "=", RVal.s "product.category")] 1 = sr at hn ⊢
    rcases sr with e | ids
    · simp
    · simp at hn ⊢
      have := registryResId_none_calls hg hn
      simpa using this
  · simp only [if_neg h]
    simp [run_pure]

theorem ec_bareExternalId_none_calls {v : String} {c : Client}
    (hg : GoodRegistry c)
    (hn : (ec_bareExternalId v c).2 = .ok none) :
    (ec_bareExternalId v c).1.length ≤ 1 := by
  unfold ec_bareExternalId at hn ⊢
  simp only [run_bind, run_searchM] at hn ⊢
  generalize hs : c.search "ir.model.data"
    [("name", "=", RVal.s v), ("model", "=", RVal.s "product.category")] 1 = sr at hn ⊢
  rcases sr with e | ids
  · simp
  · simp at hn ⊢
    have := registryResId_none_calls hg hn
    simpa using this

theorem pyIsDigit_no_dot {v : String} (h : pyIsDigit v = true) :
    v.toList.contains '.' = false := by
  unfold pyIsDigit at h
  simp only [Bool.decide_and, Bool.and_eq_true, decide_eq_true_eq] at h
  rcases h with ⟨-, hall⟩
  rw [List.all_eq_true] at hall
  by_contra hc
  rw [Bool.not_eq_false] at hc
  have hmem : '.' ∈ v.toList := by simpa using hc
  have := hall _ hmem
  simp [Char.isDigit] at this

theorem ec_numericId_not_digit {v : String} (c : Client)
    (h : pyIsDigit v = false) :
    ec_numericId v c = ([], .ok none) := by
  unfold ec_numericId
  rw [if_neg (by rw [h]; simp)]
  rfl

theorem ec_xmlId_no_dot {v : String} (c : Client)
    (h : v.toList.contains '.' = false) :
    ec_xmlId v c = ([], .ok none) := by
  unfold ec_xmlId
  rw [if_neg (by rw [h]; simp)]
  rfl

theorem firstSome_skip {x y : M (Option Int)} {c : Client}
    (hx : x c = ([], .ok none)) :
    firstSome x y c = y c := by
  rw [run_firstSome, hx]
  simp

theorem firstSome_calls {x y : M (Option Int)} {c : Client} {a b : Nat}
    (hx : (x c).1.length ≤ a) (hy : (y c).1.length ≤ b) :
    (firstSome x y c).1.length ≤ a + b := by
  rw [run_firstSome]
  rcases hx0 : x c with ⟨t, r⟩
  rw [hx0] at hx
  simp at hx
  rcases r with e | o
  · simp
    omega
  · rcases o with _ | r
    · have hy2 := hy
      simp
      omega
    · simp
      omega

theorem firstSome_calls_cond {x y : M (Option Int)} {c : Client} {a b k : Nat}
    (hx : (x c).1.length ≤ a)
    (hy : (y c).1.length ≤ b)
    (hk : a ≤ k) (hk2 : (x c).2 = .ok none → (x c).1.length + b ≤ k) :
    (firstSome x y c).1.length ≤ k := by
  rw [run_firstSome]
  rcases hx0 : x c with ⟨t, r⟩
  rw [hx0] at hx hk2
  simp at hx
  rcases r with e | o
  · simp
    omega
  · rcases o with _ | r
    · simp at hk2 ⊢
      omega
    · simp
      omega

/-- C4 (amended): one resolver call issues at most 5 remote calls in
general; when every successful registry read returns a record bound to a
truthy internal id — so that a registry hit ends the resolution — at most
3 remote calls are issued. -/
theorem ensure_category_calls_bound (v : String) (c : Client) :
    (ensure_category v c).1.length ≤ 5
    ∧ (GoodRegistry c → (ensure_category v c).1.length ≤ 3) := by
  unfold ensure_category
  by_cases h0 : _safe_str (some (.str v)) = ""
  · simp [h0, run_pure]
  · simp only [if_neg h0]
    by_cases hd : pyIsDigit (_safe_str (some (.str v))) = true
    · have hdot := pyIsDigit_no_dot hd
      have hx2 := ec_xmlId_no_dot c hdot
      refine ⟨?_, fun hg => ?_⟩
      · have h3 : ((firstSome (ec_bareExternalId (_safe_str (some (.str v))))
            (ec_byName (_safe_str (some (.str v))))) c).1.length ≤ 3 :=
          firstSome_calls (ec_bareExternalId_calls _ _) (ec_byName_calls _ _)
        have h2 : ((firstSome (ec_xmlId (_safe_str (some (.str v))))
            (firstSome (ec_bareExternalId (_safe_str (some (.str v))))
              (ec_byName (_safe_str (some (.str v)))))) c).1.length ≤ 3 := by
          rw [firstSome_skip hx2]
          exact h3
        have h1 := firstSome_calls (ec_numericId_calls (_safe_str (some (.str v))) c) h2
        omega
      · have h3 : ((firstSome (ec_bareExternalId (_safe_str (some (.str v))))
            (ec_byName (_safe_str (some (.str v))))) c).1.length ≤ 2 :=
          firstSome_calls_cond (ec_bareExternalId_calls _ _) (ec_byName_calls _ _)
            (by omega)
            (fun hn => by have := ec_bareExternalId_none_calls hg hn; omega)
        have h2 : ((firstSome (ec_xmlId (_safe_str (some (.str v))))
            (firstSome (ec_bareExternalId (_safe_str (some (.str v))))
              (ec_byName (_safe_str (some (.str v)))))) c).1.length ≤ 2 := by
          rw [firstSome_skip hx2]
          exact h3
        exact firstSome_calls_cond (ec_numericId_calls _ _) h2 (by omega)
          (fun _ => by have := ec_numericId_calls (_safe_str (some (.str v))) c; omega)
    · have hx1 := ec_numericId_not_digit c (by simpa using hd)
      rw [firstSome_skip hx1]
      refine ⟨?_, fun hg => ?_⟩
      · exact le_trans
          (firstSome_calls (ec_xmlId_calls _ _)
            (firstSome_calls (ec_bareExternalId_calls _ _) (ec_byName_calls _ _)))
          (by omega)
      · have h3 : ((firstSome (ec_bareExternalId (_safe_str (some (.str v))))
            (ec_byName (_safe_str (some (.str v))))) c).1.length ≤ 2 :=
          firstSome_calls_cond (ec_bareExternalId_calls _ _) (ec_byName_calls _ _)
            (by omega)
            (fun hn => by have := ec_bareExternalId_none_calls hg hn; omega)
        exact firstSome_calls_cond (ec_xmlId_calls _ _) h3 (by omega)
          (fun hn => by have := ec_xmlId_none_calls hg hn; omega)

theorem firstSome_hit {x y : M (Option Int)} {c : Client} {t : List RemoteCall} {r : Int}
    (hx : x c = (t, .ok (some r))) :
    firstSome x y c = (t, .ok (some r)) := by
  rw [run_firstSome, hx]

theorem firstSome_fallthrough {x y : M (Option Int)} {c : Client} {t : List RemoteCall}
    (hx : x c = (t, .ok none)) :
    firstSome x y c = (t ++ (y c).1, (y c).2) := by
  rw [run_firstSome, hx]

/-- C3: category resolution follows the fixed precedence numeric-id,
qualified external id, bare external id, display name, stopping at the
first strategy that yields an id: whenever an earlier strategy answers, the
result and the remote-call trace are exactly that strategy's (after the
failed earlier ones), and a token resolvable only by display name has
strategies 1–3 attempted — their calls appear in the trace — and failed
before strategy 4 decides the outcome. -/
theorem ensure_category_precedence (v : String) (c : Client)
    (h0 : _safe_str (some (.str v)) ≠ "") :
    (∀ r, (ec_numericId (_safe_str (some (.str v))) c).2 = .ok (some r) →
      ensure_category v c = ((ec_numericId (_safe_str (some (.str v))) c).1, .ok (some r)))
  ∧ ((ec_numericId (_safe_str (some (.str v))) c).2 = .ok none →
     ∀ r, (ec_xmlId (_safe_str (some (.str v))) c).2 = .ok (some r) →
      ensure_category v c =
        ((ec_numericId (_safe_str (some (.str v))) c).1 ++
         (ec_xmlId (_safe_str (some (.str v))) c).1, .ok (some r)))
  ∧ ((ec_numericId (_safe_str (some (.str v))) c).2 = .ok none →
     (ec_xmlId (_safe_str (some (.str v))) c).2 = .ok none →
     ∀ r, (ec_bareExternalId (_safe_str (some (.str v))) c).2 = .ok (some r) →
      ensure_category v c =
        ((ec_numericId (_safe_str (some (.str v))) c).1 ++
         ((ec_xmlId (_safe_str (some (.str v))) c).1 ++
          (ec_bareExternalId (_safe_str (some (.str v))) c).1), .ok (some r)))
  ∧ ((ec_numericId (_safe_str (some (.str v))) c).2 = .ok none →
     (ec_xmlId (_safe_str (some (.str v))) c).2 = .ok none →
     (ec_bareExternalId (_safe_str (some (.str v))) c).2 = .ok none →
      ensure_category v c =
        ((ec_numericId (_safe_str (some (.str v))) c).1 ++
         ((ec_xmlId (_safe_str (some (.str v))) c).1 ++
          ((ec_bareExternalId (_safe_str (some (.str v))) c).1 ++
           (ec_byName (_safe_str (some (.str v))) c).1)),
         (ec_byName (_safe_str (some (.str v))) c).2)) := by
  unfold ensure_category
  simp only [if_neg h0]
  refine ⟨fun r hr => ?_, fun h1 r hr => ?_, fun h1 h2 r hr => ?_, fun h1 h2 h3 => ?_⟩
  · exact firstSome_hit (by rw [← hr])
  · rw [firstSome_fallthrough (by rw [← h1]),
      firstSome_hit (x := ec_xmlId (_safe_str (some (.str v)))) (by rw [← hr])]
  · rw [firstSome_fallthrough (by rw [← h1]),
      firstSome_fallthrough (x := ec_xmlId (_safe_str (some (.str v)))) (by rw [← h2]),
      firstSome_hit (x := ec_bareExternalId (_safe_str (some (.str v)))) (by rw [← hr])]
  · rw [firstSome_fallthrough (by rw [← h1]),
      firstSome_fallthrough (x := ec_xmlId (_safe_str (some (.str v)))) (by rw [← h2]),
      firstSome_fallthrough (x := ec_bareExternalId (_safe_str (some (.str v)))) (by rw [← h3])]

theorem run_writeM (model : String) (ids : List Int) (vals : Vals) (c : Client) :
    writeM model ids vals c = ([.write model ids vals], c.write model ids vals) := rfl

theorem run_createM (model : String) (vals : Vals) (c : Client) :
    createM model vals c = ([.create model vals], c.create model vals) := rfl

theorem run_bind_ok {α β : Type} {x : M α} {f : α → M β} {c : Client}
    {t : List RemoteCall} {a : α} (h : x c = (t, .ok a)) :
    (x >>= f) c = (t ++ (f a c).1, (f a c).2) := by
  rw [run_bind, h]

theorem run_bind_error {α β : Type} {x : M α} {f : α → M β} {c : Client}
    {t : List RemoteCall} {e : String} (h : x c = (t, .error e)) :
    (x >>= f) c = (t, .error e) := by
  rw [run_bind, h]

theorem worker_task_fst (i : Nat) (row : Row) (dry : Bool) (c : Client) :
    ((worker_task (i, row, dry) c).1).1 = i := by
  cases dry with
  | true => rfl
  | false =>
    rcases h : import_row row c with ⟨t, r⟩
    rcases r with e | l <;> simp [worker_task, h]

theorem batchResults_length (rows : List Row) (dry : Bool) (c : Client) :
    (batchResults rows dry c).length = rows.length := by
  simp [batchResults]

theorem batchResults_map_fst (rows : List Row) (dry : Bool) (c : Client) :
    (batchResults rows dry c).map Prod.fst = List.range rows.length := by
  unfold batchResults
  rw [List.map_map]
  have h : (Prod.fst ∘ fun p : Nat × Row => (worker_task (p.1, p.2, dry) c).1) =
      fun p : Nat × Row => p.1 := by
    funext p
    exact worker_task_fst p.1 p.2 dry c
  rw [h]
  exact List.enum_map_fst rows

theorem tally_aux (rs : List (Nat × Bool × String)) (a : Nat × Nat) :
    (rs.foldl (fun a r => if r.2.1 then (a.1 + 1, a.2) else (a.1, a.2 + 1)) a).1 +
    (rs.foldl (fun a r => if r.2.1 then (a.1 + 1, a.2) else (a.1, a.2 + 1)) a).2 =
    a.1 + a.2 + rs.length := by
  induction rs generalizing a with
  | nil => simp
  | cons r rs ih =>
    rw [List.foldl_cons]
    rw [ih]
    by_cases h : r.2.1 = true <;> simp [h] <;> omega

theorem tally_total (rs : List (Nat × Bool × String)) :
    (tally rs).1 + (tally rs).2 = rs.length := by
  unfold tally
  rw [tally_aux]
  simp

theorem reportInOrder_of_perm {comp base : List (Nat × Bool × String)}
    (hperm : comp.Perm base)
    (hsorted : base.Pairwise (fun a b => a.1 < b.1)) :
    reportInOrder comp = base := by
  unfold reportInOrder
  have hp : (comp.insertionSort (fun a b => a.1 ≤ b.1)).Perm base :=
    (List.perm_insertionSort _ comp).trans hperm
  have hs1 : (comp.insertionSort (fun a b => a.1 ≤ b.1)).Pairwise (fun a b => a.1 ≤ b.1) :=
    List.sorted_insertionSort _ comp
  have hnda : (base.map Prod.fst).Nodup := by
    show (base.map Prod.fst).Pairwise (fun a b => a ≠ b)
    exact (List.pairwise_map).mpr (hsorted.imp (fun h => Nat.ne_of_lt h))
  have hnd : (comp.insertionSort (fun a b => a.1 ≤ b.1)).Pairwise (fun a b => a.1 ≠ b.1) := by
    have hpm : ((comp.insertionSort (fun a b => a.1 ≤ b.1)).map Prod.fst).Perm
        (base.map Prod.fst) := hp.map Prod.fst
    have : ((comp.insertionSort (fun a b => a.1 ≤ b.1)).map Prod.fst).Nodup :=
      (hpm.nodup_iff).mpr hnda
    exact (List.pairwise_map).mp this
  have hs2 : (comp.insertionSort (fun a b => a.1 ≤ b.1)).Pairwise (fun a b => a.1 < b.1) :=
    ((hs1.and hnd).imp (fun h => Nat.lt_of_le_of_ne h.1 h.2))
  exact List.eq_of_perm_of_sorted hp hs2 hsorted

theorem batchResults_pairwise_lt (rows : List Row) (dry : Bool) (c : Client) :
    (batchResults rows dry c).Pairwise (fun a b => a.1 < b.1) := by
  have h := List.pairwise_lt_range rows.length
  rw [← batchResults_map_fst rows dry c] at h
  exact (List.pairwise_map).mp h

theorem good_registryClient : GoodRegistry registryClient := by
  intro ids recs h
  cases h
  decide

theorem tally_aux_ok (rs : List (Nat × Bool × String)) (a : Nat × Nat)
    (h : ∀ r ∈ rs, r.2.1 = true) :
    rs.foldl (fun a r => if r.2.1 then (a.1 + 1, a.2) else (a.1, a.2 + 1)) a =
      (a.1 + rs.length, a.2) := by
  induction rs generalizing a with
  | nil => simp
  | cons r rs ih =>
    rw [List.foldl_cons, if_pos (h r (by simp))]
    rw [ih _ (fun x hx => h x (by simp [hx]))]
    simp
    omega

theorem dry_run_worker (i : Nat) (row : Row) (c : Client) :
    worker_task (i, row, true) c = ((i, true, "(dry-run)"), []) := rfl

theorem dry_run_batch_ok (rows : List Row) (c : Client) :
    (∀ r ∈ batchResults rows true c, r.2.1 = true)
    ∧ tally (batchResults rows true c) = (rows.length, 0) := by
  have hall : ∀ r ∈ batchResults rows true c, r.2.1 = true := by
    intro r hr
    simp only [batchResults, List.mem_map] at hr
    obtain ⟨p, -, hp⟩ := hr
    rw [← hp, dry_run_worker]
  refine ⟨hall, ?_⟩
  unfold tally
  rw [tally_aux_ok _ _ hall]
  simp [batchResults_length]

theorem Vals.get_append (a b : Vals) (k : String) :
    Vals.get (a ++ b) k = (Vals.get a k).or (Vals.get b k) := by
  unfold Vals.get
  rw [List.find?_append]
  rcases h1 : List.find? (fun p => decide (p.1 = k)) a with _ | p <;>
    rcases h2 : List.find? (fun p => decide (p.1 = k)) b with _ | q <;>
      simp [h1, h2, Option.or]

theorem Vals.get_ite_single_ne (P : Prop) [inst : Decidable P] (k k' : String) (v : FVal)
    (h : ¬(k' = k)) :
    Vals.get (if P then [(k', v)] else []) k = none := by
  unfold Vals.get
  split <;> simp [List.find?, h]

theorem Vals.get_cons (k k' : String) (v : FVal) (rest : Vals) :
    Vals.get ((k', v) :: rest) k = if k' = k then some v else Vals.get rest k := by
  unfold Vals.get
  by_cases h : k' = k <;> simp [List.find?, h]

theorem Vals.get_nil (k : String) : Vals.get [] k = none := rfl

theorem Vals.get_ite_single_ne2 (P : Prop) [inst : Decidable P] (k k' : String) (v : FVal)
    (h : ¬(k' = k)) :
    Vals.get (if P then [] else [(k', v)]) k = none := by
  unfold Vals.get
  split <;> simp [List.find?, h]

theorem buildVals_flags (row : Row) (cid : Option Int) :
    Vals.get (buildVals row cid) "available_in_pos" =
      some (.b (_to_bool (row.get "available_in_pos")))
  ∧ Vals.get (buildVals row cid) "purchase_ok" =
      some (.b (_to_bool (row.get "purchase_ok")))
  ∧ Vals.get (buildVals row cid) "sale_ok" =
      some (.b (_to_bool (row.get "sale_ok")))
  ∧ Vals.get (buildVals row cid) "is_storable" =
      some (.b (_to_bool (row.get "is_storable"))) := by
  refine ⟨?_, ?_, ?_, ?_⟩ <;>
    (rcases cid with _ | n <;>
      simp [buildVals, Vals.get_append, Vals.get_ite_single_ne, Vals.get_ite_single_ne2,
        Vals.get_cons, Vals.get_nil])

/-- C1: for every batch of N input rows the run reports exactly one result
per row — N results, tagged with indices 0..N-1 in strictly increasing
order — and any completion order re-sorted by index yields exactly the
in-order results; the final tally satisfies succeeded + failed = N. -/
theorem batch_reporting (rows : List Row) (dry : Bool) (c : Client)
    (comp : List (Nat × Bool × String))
    (hperm : comp.Perm (batchResults rows dry c)) :
    reportInOrder comp = batchResults rows dry c
    ∧ (batchResults rows dry c).length = rows.length
    ∧ (batchResults rows dry c).map Prod.fst = List.range rows.length
    ∧ (tally (batchResults rows dry c)).1 + (tally (batchResults rows dry c)).2 =
        rows.length :=
  ⟨reportInOrder_of_perm hperm (batchResults_pairwise_lt rows dry c),
   batchResults_length rows dry c,
   batchResults_map_fst rows dry c,
   by rw [tally_total, batchResults_length]⟩

/-- C1 witness: a three-row batch whose completions arrive in reversed
order is still reported in index order with a full tally. -/
theorem batch_reporting_witness :
    ((batchResults demoRows true okClient).reverse).Perm (batchResults demoRows true okClient)
    ∧ reportInOrder ((batchResults demoRows true okClient).reverse) =
        batchResults demoRows true okClient
    ∧ (batchResults demoRows true okClient).length = demoRows.length
    ∧ (batchResults demoRows true okClient).map Prod.fst = List.range demoRows.length
    ∧ (tally (batchResults demoRows true okClient)).1 +
        (tally (batchResults demoRows true okClient)).2 = demoRows.length := by
  have h := batch_reporting demoRows true okClient
    ((batchResults demoRows true okClient).reverse) (by decide)
  exact ⟨by decide, h.1, h.2.1, h.2.2.1, h.2.2.2⟩

/-- C2: for a row with at least one natural identifier, once the category
resolution completed, the service searches `product.template` with limit 1
by exact code match when a code is present and exact name match otherwise;
a hit is updated via `write` with message `update: code-or-name`, a miss is
created via `create` with the built value map and message
`create: code-or-name`. -/
theorem import_row_upsert (row : Row) (c : Client)
    (hid : ¬(_safe_str (row.get "name") = "" ∧ _safe_str (row.get "default_code") = ""))
    (categ : Option Int) (tc : List RemoteCall)
    (hcat : ensure_category (category_value row) c = (tc, .ok categ)) :
    (∀ i rest b,
       c.search "product.template" (natural_key_domain row) 1 = .ok (i :: rest) →
       c.write "product.template" [i] (buildVals row categ) = .ok b →
       import_row row c =
         (tc ++ [.search "product.template" (natural_key_domain row) 1,
                 .write "product.template" [i] (buildVals row categ)],
          .ok ("update: " ++ row_ident row)))
  ∧ (∀ cid,
       c.search "product.template" (natural_key_domain row) 1 = .ok [] →
       c.create "product.template" (buildVals row categ) = .ok cid →
       import_row row c =
         (tc ++ [.search "product.template" (natural_key_domain row) 1,
                 .create "product.template" (buildVals row categ)],
          .ok ("create: " ++ row_ident row)))
  ∧ (_safe_str (row.get "default_code") ≠ "" →
       natural_key_domain row =
         [("default_code", "=", RVal.s (_safe_str (row.get "default_code")))]
       ∧ row_ident row = _safe_str (row.get "default_code"))
  ∧ (_safe_str (row.get "default_code") = "" →
       natural_key_domain row = [("name", "=", RVal.s (_safe_str (row.get "name")))]
       ∧ row_ident row = _safe_str (row.get "name")) := by
  refine ⟨?_, ?_, ?_, ?_⟩
  · intro i rest b hs hw
    unfold import_row
    rw [if_neg hid]
    rw [run_bind_ok hcat]
    rw [run_bind_ok (show searchM "product.template" (natural_key_domain row) 1 c
      = ([.search "product.template" (natural_key_domain row) 1], .ok (i :: rest)) from by
        rw [run_searchM, hs])]
    simp [run_bind, run_writeM, run_pure, hw]
  · intro cid hs hcr
    unfold import_row
    rw [if_neg hid]
    rw [run_bind_ok hcat]
    rw [run_bind_ok (show searchM "product.template" (natural_key_domain row) 1 c
      = ([.search "product.template" (natural_key_domain row) 1], .ok []) from by
        rw [run_searchM, hs])]
    simp [run_bind, run_createM, run_pure, hcr]
  · intro h
    constructor <;> simp [natural_key_domain, row_ident, h]
  · intro h
    constructor <;> simp [natural_key_domain, row_ident, h]

/-- C2 witness: a concrete row with code `SKU1` against an empty store is
created and reported as `create: SKU1`. -/
theorem import_row_upsert_witness :
    (¬(_safe_str (upsertRow.get "name") = "" ∧ _safe_str (upsertRow.get "default_code") = ""))
    ∧ ensure_category (category_value upsertRow) okClient = ([], .ok none)
    ∧ okClient.search "product.template" (natural_key_domain upsertRow) 1 = .ok []
    ∧ okClient.create "product.template" (buildVals upsertRow none) = .ok 1
    ∧ import_row upsertRow okClient =
        ([.search "product.template" (natural_key_domain upsertRow) 1,
          .create "product.template" (buildVals upsertRow none)],
         .ok "create: SKU1") := by
  refine ⟨by decide, by rfl, by rfl, by rfl, ?_⟩
  have h := (import_row_upsert upsertRow okClient (by decide) none [] (by rfl)).2.1
    1 (by rfl) (by rfl)
  exact h.trans (by rfl)

/-- C3 witness: token "42" resolves through strategy 1 even though the
registry would also match it; token "Muebles" falls through strategies 1–3
to the display-name search. -/
theorem ensure_category_precedence_witness :
    ((ec_numericId (_safe_str (some (.str "42"))) idClient).2 = .ok (some 42)
     ∧ ensure_category "42" idClient =
         ((ec_numericId (_safe_str (some (.str "42"))) idClient).1, .ok (some 42)))
  ∧ ((ec_numericId (_safe_str (some (.str "Muebles"))) nameClient).2 = .ok none
     ∧ (ec_xmlId (_safe_str (some (.str "Muebles"))) nameClient).2 = .ok none
     ∧ (ec_bareExternalId (_safe_str (some (.str "Muebles"))) nameClient).2 = .ok none
     ∧ ensure_category "Muebles" nameClient =
         ((ec_numericId (_safe_str (some (.str "Muebles"))) nameClient).1 ++
          ((ec_xmlId (_safe_str (some (.str "Muebles"))) nameClient).1 ++
           ((ec_bareExternalId (_safe_str (some (.str "Muebles"))) nameClient).1 ++
            (ec_byName (_safe_str (some (.str "Muebles"))) nameClient).1)),
          (ec_byName (_safe_str (some (.str "Muebles"))) nameClient).2)) :=
  ⟨⟨by rfl, (ensure_category_precedence "42" idClient (by decide)).1 42 (by rfl)⟩,
   ⟨by rfl, by rfl, by rfl,
    (ensure_category_precedence "Muebles" nameClient (by decide)).2.2.2
      (by rfl) (by rfl) (by rfl)⟩⟩

/-- C4 counterexample: with a registry whose matched records are bound to
the falsy id 0, resolving the token "m.x" issues five remote calls, so the
claimed bound of three remote calls per resolution is violated. -/
theorem resolver_exceeds_three_calls :
    3 < (ensure_category "m.x" degenerateRegistryClient).1.length := by decide

/-- C4 witness: a well-behaved registry oracle satisfies `GoodRegistry`,
and resolving a plain token against it stays within three remote calls. -/
theorem ensure_category_calls_bound_witness :
    GoodRegistry registryClient
    ∧ (ensure_category "plain" registryClient).1.length ≤ 3 :=
  ⟨good_registryClient,
   (ensure_category_calls_bound "plain" registryClient).2 good_registryClient⟩

/-- C5 counterexample: the source token "0" for `list_price` is non-empty,
yet the built value map contains no `list_price` key, because the parsed
value 0.0 is falsy — so "every non-empty source value for a recognized
field results in that field being present" fails. -/
theorem nonempty_price_token_omitted :
    _safe_str (zeroPriceRow.get "list_price") ≠ ""
    ∧ "list_price" ∉ Vals.keys (buildVals zeroPriceRow none) := by
  exact ⟨by decide, by decide⟩

/-- C5 (amended): the built value map is sparse — a non-boolean field is
present only when its source is truthy: string fields iff the stripped
source is non-empty (barcode additionally demanding it not spell "nan"),
numeric fields iff the parsed value is nonzero (a non-empty token parsing
to 0.0 is omitted), and the category iff resolution returned a nonzero
id. -/
theorem buildVals_sparse (row : Row) (cid : Option Int) :
    ("name" ∈ Vals.keys (buildVals row cid) ↔ _safe_str (row.get "name") ≠ "")
  ∧ ("default_code" ∈ Vals.keys (buildVals row cid) ↔
       _safe_str (row.get "default_code") ≠ "")
  ∧ ("barcode" ∈ Vals.keys (buildVals row cid) ↔
       (_safe_str (row.get "barcode") ≠ ""
        ∧ pyLower (_safe_str (row.get "barcode")) ≠ "nan"))
  ∧ ("list_price" ∈ Vals.keys (buildVals row cid) ↔ _to_float (row.get "list_price") ≠ 0)
  ∧ ("standard_price" ∈ Vals.keys (buildVals row cid) ↔
       _to_float (row.get "standard_price") ≠ 0)
  ∧ ("supplier_code" ∈ Vals.keys (buildVals row cid) ↔
       _safe_str (row.get "supplier_code") ≠ "")
  ∧ ("brand" ∈ Vals.keys (buildVals row cid) ↔ _safe_str (row.get "brand") ≠ "")
  ∧ ("categ_id" ∈ Vals.keys (buildVals row cid) ↔ ∃ n, cid = some n ∧ n ≠ 0) := by
  refine ⟨?_, ?_, ?_, ?_, ?_, ?_, ?_, ?_⟩ <;>
    (rcases cid with _ | n <;>
      simp [buildVals, Vals.keys, apply_ite (List.map (fun p : String × FVal => p.1)),
        List.mem_append]) <;>
    (try exact and_comm)

/-- C6: the truthy vocabulary maps "1", "true", "YES", "x", "Sí" to true
case-insensitively; "0", "false", "", "no" — and any token outside the
vocabulary — map to false; and the four boolean flag fields are always
present in the built value map, bound to the parsed flag, whatever the
row contains. -/
theorem bool_vocabulary_and_flags :
    (_to_bool (some (.str "1")) = true ∧ _to_bool (some (.str "true")) = true
      ∧ _to_bool (some (.str "YES")) = true ∧ _to_bool (some (.str "x")) = true
      ∧ _to_bool (some (.str "Sí")) = true)
  ∧ (_to_bool (some (.str "0")) = false ∧ _to_bool (some (.str "false")) = false
      ∧ _to_bool (some (.str "")) = false ∧ _to_bool (some (.str "no")) = false)
  ∧ (∀ s : String,
      pyLower (pyStrip s) ∉ ["1", "true", "t", "si", "sí", "yes", "y", "x", "s"] →
      _to_bool (some (.str s)) = false)
  ∧ (∀ (row : Row) (cid : Option Int),
      Vals.get (buildVals row cid) "available_in_pos" =
        some (.b (_to_bool (row.get "available_in_pos")))
      ∧ Vals.get (buildVals row cid) "purchase_ok" =
          some (.b (_to_bool (row.get "purchase_ok")))
      ∧ Vals.get (buildVals row cid) "sale_ok" =
          some (.b (_to_bool (row.get "sale_ok")))
      ∧ Vals.get (buildVals row cid) "is_storable" =
          some (.b (_to_bool (row.get "is_storable")))) := by
  refine ⟨by decide, by decide, ?_, buildVals_flags⟩
  intro s h
  simp only [_to_bool]
  simpa using h

/-- C6 witness: the out-of-vocabulary token "maybe" parses to false. -/
theorem bool_vocabulary_and_flags_witness :
    pyLower (pyStrip "maybe") ∉ ["1", "true", "t", "si", "sí", "yes", "y", "x", "s"]
    ∧ _to_bool (some (.str "maybe")) = false :=
  ⟨by decide, bool_vocabulary_and_flags.2.2.1 "maybe" (by decide)⟩

/-- C7: the numeric and boolean conversions are total — any string whose
comma-fixed form fails to parse yields 0.0, the malformed token "abc"
yields 0.0, an unrecognized boolean token yields false — and a row holding
such malformed values is still imported successfully rather than
rejected. -/
theorem conversions_never_raise :
    (∀ s : String,
       pyFloat? (String.mk (s.toList.map (fun c => if c = ',' then '.' else c))) = none →
       _to_float (some (.str s)) = 0)
  ∧ pyFloat? "abc" = none
  ∧ _to_float (some (.str "abc")) = 0
  ∧ _to_bool (some (.str "quizás")) = false
  ∧ worker_task (0, malformedRow, false) okClient =
      ((0, true, "create: SKU1"),
       [.search "product.template" (natural_key_domain malformedRow) 1,
        .create "product.template" (buildVals malformedRow none)]) := by
  refine ⟨?_, by decide, by decide, by decide, by rfl⟩
  intro s h
  have h2 : pyFloat? (String.mk (s.data.map (fun c => if c = ',' then '.' else c))) = none := h
  unfold _to_float
  by_cases hs : s = ""
  · simp [hs]
  · simp [hs, h2]

/-- C7 witness: the degradation clause applied to the literal "abc". -/
theorem conversions_never_raise_witness :
    pyFloat? (String.mk ("abc".toList.map (fun c => if c = ',' then '.' else c))) = none
    ∧ _to_float (some (.str "abc")) = 0 :=
  ⟨by decide, conversions_never_raise.1 "abc" (by decide)⟩

/-- C8: in dry-run mode every worker answers immediately with a synthetic
success and an empty remote-call trace, so the whole batch reports every
row successful with zero remote calls and an untouched store. -/
theorem dry_run_no_remote_calls (i : Nat) (row : Row) (c : Client) (rows : List Row) :
    worker_task (i, row, true) c = ((i, true, "(dry-run)"), [])
  ∧ (batchResults rows true c).all (fun r => r.2.1) = true
  ∧ tally (batchResults rows true c) = (rows.length, 0) :=
  ⟨dry_run_worker i row c,
   List.all_eq_true.mpr (fun r hr => (dry_run_batch_ok rows c).1 r hr),
   (dry_run_batch_ok rows c).2⟩

/-- C9 counterexample: a batch holding one unidentifiable row (no code, no
name) tallies as one success and zero failures — the skipped row is counted
in the success bucket, not "as neither a success nor a hard failure". -/
theorem skipped_row_counted_as_success :
    import_row unidentifiedRow okClient = ([], .ok "(sin nombre ni código)")
    ∧ tally (batchResults [unidentifiedRow] false okClient) = (1, 0) :=
  ⟨by rfl, by rfl⟩

/-- C9 (amended): a row with blank code and name short-circuits with the
distinct message "(sin nombre ni código)", issues no remote call and is not
an error; the worker reports it as a success, so the final tally counts it
in the success bucket. -/
theorem skipped_row_short_circuit (i : Nat) (row : Row) (c : Client)
    (hn : _safe_str (row.get "name") = "")
    (hc : _safe_str (row.get "default_code") = "") :
    import_row row c = ([], .ok "(sin nombre ni código)")
    ∧ worker_task (i, row, false) c = ((i, true, "(sin nombre ni código)"), []) := by
  have h1 : import_row row c = ([], .ok "(sin nombre ni código)") := by
    unfold import_row
    rw [if_pos ⟨hn, hc⟩]
    rfl
  exact ⟨h1, by simp [worker_task, h1]⟩

/-- C9 witness: the amended behavior at a concrete unidentifiable row. -/
theorem skipped_row_short_circuit_witness :
    _safe_str (unidentifiedRow.get "name") = ""
    ∧ _safe_str (unidentifiedRow.get "default_code") = ""
    ∧ worker_task (0, unidentifiedRow, false) okClient =
        ((0, true, "(sin nombre ni código)"), []) :=
  ⟨by decide, by decide,
   (skipped_row_short_circuit 0 unidentifiedRow okClient (by decide) (by decide)).2⟩

/-- C10: any failure raised during a row is caught by the worker and turned
into a failure triple carrying the row's identifier (code, else name, else
the no-identifier marker) and the error text; the worker always returns
(no exception escapes), the row is processed once, and every batch still
yields one result per row. -/
theorem worker_failure_isolation (i : Nat) (row : Row) (c : Client)
    (t : List RemoteCall) (e : String)
    (hfail : import_row row c = (t, .error e)) :
    worker_task (i, row, false) c =
      ((i, false,
        "ERROR en " ++
          (if _safe_str (row.get "default_code") ≠ "" then _safe_str (row.get "default_code")
           else if _safe_str (row.get "name") ≠ "" then _safe_str (row.get "name")
           else "(sin identificador)") ++ ": " ++ e), t)
    ∧ (∀ rows : List Row, (batchResults rows false c).length = rows.length) := by
  refine ⟨?_, fun rows => batchResults_length rows false c⟩
  simp [worker_task, hfail, failIdent]

/-- C10 witness: against an oracle whose calls all fail, the row `SKU9` is
reported as a failure carrying its code and the transport error, with the
batch machinery intact. -/
theorem worker_failure_isolation_witness :
    import_row failRow failingClient =
      ([.search "product.template" (natural_key_domain failRow) 1], .error "connection refused")
    ∧ worker_task (0, failRow, false) failingClient =
        ((0, false, "ERROR en SKU9: connection refused"),
         [.search "product.template" (natural_key_domain failRow) 1]) := by
  refine ⟨by rfl, ?_⟩
  have h := (worker_failure_isolation 0 failRow failingClient
    [.search "product.template" (natural_key_domain failRow) 1] "connection refused"
    (by rfl)).1
  exact h.trans (by decide)

end ProductsCreate
